import Mathlib

/-!
Verification of the KDBusService single-instance coordination core
(kdbusaddons). The repository snapshot contains the public header
src/src/kdbusservice.h; the implementation file kdbusservice.cpp is not
present, so the behaviour of the coordinator, the activation handlers and
the forwarder is modelled from the specification (spec.md) and from the
contracts documented in the header. Enum values, the constructor default
argument, and the declared signatures come directly from the header.
-/

namespace KDBus

/-- StartupOption flag value Unique = 1, from the StartupOption enum in
src/src/kdbusservice.h (lines 108-113). -/
def Unique : Nat := 1

/-- StartupOption flag value Multiple = 2, from the StartupOption enum in
src/src/kdbusservice.h. -/
def Multiple : Nat := 2

/-- StartupOption flag value NoExitOnFailure = 4, from the StartupOption enum
in src/src/kdbusservice.h. -/
def NoExitOnFailure : Nat := 4

/-- StartupOption flag value Replace = 8, from the StartupOption enum in
src/src/kdbusservice.h. -/
def Replace : Nat := 8

/-- A StartupOptions value is a bit-set over the four flags; this tests one
flag. -/
def hasFlag (options flag : Nat) : Bool := options &&& flag != 0

/-- The default value of the constructor parameter options, from the
declaration at line 133 of src/src/kdbusservice.h:
explicit KDBusService(StartupOptions options = Multiple, ...). -/
def defaultStartupOptions : Nat := Multiple

/-- Fatal configuration errors raised at construction. -/
inductive ConfigError where
  | uniqueAndMultiple
  | emptyIdentity
deriving DecidableEq, Repr

/-- Outcome of one atomic claim-name request to the bus. -/
inductive ClaimResult where
  | ok
  | ownedByOther
  | transportError (msg : String)
deriving DecidableEq, Repr

/-- The bus replies the coordinator can observe during one registration
sequence: the first claim outcome, whether the current owner disconnects
within the timeout after a quit request, and the retried claim outcome. -/
structure BusResponses where
  firstClaim : ClaimResult
  ownerQuits : Bool
  retryClaim : ClaimResult
deriving DecidableEq, Repr

/-- RegistrationState of a coordinator instance (spec.md section 3). -/
inductive RegistrationState where
  | unregistered
  | registered
  | forwarding
  | failed
deriving DecidableEq, Repr

/-- Observable actions the coordination core (or the caller layered on top of
it) can take towards the bus or the hosting process. -/
inductive BusAction where
  | claimName
  | quitRequest
  | exitProcess
deriving DecidableEq, Repr

/-- Modelled from the spec: RegistrationCoordinator.register of the missing
kdbusservice.cpp (spec.md section 4.2). One atomic claim; on ownedByOther with
the Replace flag, one quit request to the owner, a bounded wait, and on the
owner quitting exactly one retried claim, a second ownedByOther falling
through to forwarding; on ownedByOther without Replace, forwarding; on
transport failure, failed. Returns the resulting state and the list of
actions issued, in order. -/
def register (options : Nat) (bus : BusResponses) :
    RegistrationState × List BusAction :=
  match bus.firstClaim with
  | .ok => (.registered, [.claimName])
  | .transportError _ => (.failed, [.claimName])
  | .ownedByOther =>
    if hasFlag options Replace then
      if bus.ownerQuits then
        match bus.retryClaim with
        | .ok => (.registered, [.claimName, .quitRequest, .claimName])
        | .ownedByOther => (.forwarding, [.claimName, .quitRequest, .claimName])
        | .transportError _ => (.failed, [.claimName, .quitRequest, .claimName])
      else
        (.forwarding, [.claimName, .quitRequest])
    else
      (.forwarding, [.claimName])

/-- Modelled from the spec: the IdentityResolver of the missing
kdbusservice.cpp (spec.md section 4.1, header lines 118-132). The service
name is the reversed organization domain followed by the application name,
with the pid appended when the Multiple flag is set; empty domain or name is
a fatal configuration error. -/
def resolveIdentity (reversedDomain appName : String) (options : Nat)
    (pid : Nat) : Except ConfigError String :=
  if reversedDomain = "" || appName = "" then
    .error .emptyIdentity
  else if hasFlag options Multiple then
    .ok (reversedDomain ++ "." ++ appName ++ "-" ++ toString pid)
  else
    .ok (reversedDomain ++ "." ++ appName)

/-- Modelled from the spec: the KDBusService constructor of the missing
kdbusservice.cpp. It validates the configuration (Unique and Multiple are
mutually exclusive) before any bus interaction, resolves the identity, and
runs the registration coordinator. Returns the construction outcome and the
bus actions issued. -/
def construct (options : Nat) (reversedDomain appName : String) (pid : Nat)
    (bus : BusResponses) :
    Except ConfigError RegistrationState × List BusAction :=
  if hasFlag options Unique && hasFlag options Multiple then
    (.error .uniqueAndMultiple, [])
  else
    match resolveIdentity reversedDomain appName options pid with
    | .error e => (.error e, [])
    | .ok _ =>
      let r := register options bus
      (.ok r.1, r.2)

/-- Modelled from the spec: the default termination policy that the hosting
application layers on top of the coordinator (spec.md section 4.2 and the
NoExitOnFailure documentation at header lines 93-100). The caller, not the
coordinator, exits the process on a non-registered outcome unless
NoExitOnFailure is set. -/
def callerExitPolicy (options : Nat) (state : RegistrationState) :
    List BusAction :=
  if state = RegistrationState.registered || hasFlag options NoExitOnFailure
  then []
  else [.exitProcess]

/-- The local state of a KDBusService instance visible through the public
accessors of the header: isRegistered, serviceName, errorMessage and the
exit value managed by setExitValue. -/
structure CoordState where
  registered : Bool
  serviceName : String
  errorMessage : String
  exitValue : Int
deriving DecidableEq, Repr

/-- Modelled from the spec: KDBusService.unregister of the missing
kdbusservice.cpp (spec.md section 4.2, header lines 265-269). It releases the
claim when held and otherwise changes nothing; it is total, so it never
fails. -/
def unregister (s : CoordState) : CoordState := { s with registered := false }

/-- The typed activation events dispatched to the hosting application,
mirroring the signals declared in src/src/kdbusservice.h:
activateRequested(arguments, workingDirectory), openRequested(uris) and
activateActionRequested(actionName, parameter). The type alpha stands for
the opaque variant values carried by D-Bus. -/
inductive Event (α : Type) where
  | activateRequested (arguments : List String) (workingDirectory : String)
  | openRequested (uris : List String)
  | activateActionRequested (actionName : String) (parameter : Option α)
deriving DecidableEq, Repr

/-- Modelled from the spec: the collapsing of the ActivateAction parameter
list of the missing kdbusservice.cpp (spec.md section 4.4): zero elements
give no parameter, exactly one element gives that value, two or more
elements are treated as no parameter. -/
def decodeActionParameter {α : Type} (maybeParameter : List α) : Option α :=
  match maybeParameter with
  | [x] => some x
  | _ => none

/-- Modelled from the spec: the bus-exposed Activate handler of the missing
kdbusservice.cpp (header line 273 declares it; header lines 193-195 document
that it triggers activateRequested with empty arguments). The platform data
is passed through without interpretation. -/
def Activate {α : Type} (_platform_data : List (String × α)) : Event α :=
  .activateRequested [] ""

/-- Modelled from the spec: the bus-exposed Open handler of the missing
kdbusservice.cpp (header line 274); emits an openRequested event carrying the
URI sequence. -/
def Open {α : Type} (uris : List String) (_platform_data : List (String × α)) :
    Event α :=
  .openRequested uris

/-- Modelled from the spec: the bus-exposed ActivateAction handler of the
missing kdbusservice.cpp (header line 275); collapses the parameter list and
emits an activateActionRequested event. -/
def ActivateAction {α : Type} (action_name : String) (maybeParameter : List α)
    (_platform_data : List (String × α)) : Event α :=
  .activateActionRequested action_name (decodeActionParameter maybeParameter)

/-- The ExitCoordinator state: the mutable exit value, default 0. -/
structure ServiceState where
  exitValue : Int
deriving DecidableEq, Repr

/-- A freshly constructed service: exit value 0 (header doc: the default
value is 0). -/
def initialServiceState : ServiceState := ⟨0⟩

/-- KDBusService.setExitValue (header lines 168-181): stores the exit value
to be used for a duplicate instance. Modelled from the spec: the
implementation is missing; no validation is performed. -/
def setExitValue (value : Int) (s : ServiceState) : ServiceState :=
  { s with exitValue := value }

/-- Modelled from the spec: the bus-exposed CommandLine handler of the
missing kdbusservice.cpp (header line 279, spec.md section 4.4). It emits an
activateRequested event, delivers it synchronously to the local handler
(modelled as a state-transforming function), and then replies with the exit
value held at the moment it returns. Returns (reply, new state, emitted
event). -/
def CommandLine {α : Type}
    (handler : List String → String → ServiceState → ServiceState)
    (arguments : List String) (workingDirectory : String)
    (_platform_data : List (String × α)) (s : ServiceState) :
    Int × ServiceState × Event α :=
  let s' := handler arguments workingDirectory s
  (s'.exitValue, s', Event.activateRequested arguments workingDirectory)

/-- Modelled from the spec: ActivationForwarder.forward of the missing
kdbusservice.cpp (spec.md section 4.3). A contending instance places one
synchronous remote call to the owner's CommandLine handler and the returned
integer is its exit code with no further interpretation. -/
def forward (handler : List String → String → ServiceState → ServiceState)
    (invocationArgs : List String) (workingDirectory : String)
    (ownerState : ServiceState) : Int :=
  (CommandLine (α := Unit) handler invocationArgs workingDirectory [] ownerState).1

/-- Local lifecycle events of the process hosting a registered service. -/
inductive LifecycleEvent where
  | destroyObject
  | unregisterCall
  | processExit
  | otherActivity
deriving DecidableEq, Repr

/-- Modelled from the spec: the effect of each local lifecycle event on the
bus-side registration (the owner recorded by the bus for the claimed
identity). Destroying the KDBusService object does not unregister the
application (header lines 135-142); only an explicit unregister call or
process termination releases the claim (spec.md section 3). -/
def busOwnerAfter (owner : Option Nat) (e : LifecycleEvent) : Option Nat :=
  match e with
  | .destroyObject => owner
  | .unregisterCall => none
  | .processExit => none
  | .otherActivity => owner

/-- The bus-side owner after a sequence of local lifecycle events. -/
def busOwnerAfterTrace (owner : Option Nat) (trace : List LifecycleEvent) :
    Option Nat :=
  trace.foldl busOwnerAfter owner

end KDBus

namespace KDBus

/-- C9: the constructor declaration at line 133 of src/src/kdbusservice.h
gives the options parameter the default value Multiple, so an option-less
construction behaves identically to one constructed with Multiple. -/
theorem default_construction_is_multiple :
    defaultStartupOptions = Multiple ∧
    ∀ (d n : String) (pid : Nat) (bus : BusResponses),
      construct defaultStartupOptions d n pid bus =
        construct Multiple d n pid bus :=
  ⟨rfl, fun _ _ _ _ => rfl⟩

/-- C3: for every StartupOptions value with both the Unique flag and the
Multiple flag set, construction raises the fatal configuration error
uniqueAndMultiple and issues no bus action at all (the error precedes any bus
interaction). -/
theorem unique_and_multiple_fatal (options : Nat) (d n : String) (pid : Nat)
    (bus : BusResponses)
    (hu : hasFlag options Unique = true)
    (hm : hasFlag options Multiple = true) :
    (construct options d n pid bus).1 = .error .uniqueAndMultiple ∧
    (construct options d n pid bus).2 = [] := by
  simp [construct, hu, hm]

/-- Witness for C3: at options = 3 (Unique and Multiple both set) with a
concrete identity and bus, construction fails with uniqueAndMultiple and
issues no bus action. -/
theorem unique_and_multiple_fatal_witness :
    (construct 3 "org.kde" "kuiserver" 1234
        ⟨ClaimResult.ok, true, ClaimResult.ok⟩).1 =
      .error .uniqueAndMultiple ∧
    (construct 3 "org.kde" "kuiserver" 1234
        ⟨ClaimResult.ok, true, ClaimResult.ok⟩).2 = [] :=
  unique_and_multiple_fatal 3 "org.kde" "kuiserver" 1234
    ⟨ClaimResult.ok, true, ClaimResult.ok⟩ (by decide) (by decide)

/-- C2: unregister is idempotent. For every coordinator state, applying
unregister twice equals applying it once, the claim is released afterwards,
and on a state that is already unregistered it is a strict no-op (no state
change; being a total function it cannot fail). -/
theorem unregister_idempotent (s : CoordState) :
    unregister (unregister s) = unregister s ∧
    (unregister s).registered = false ∧
    (s.registered = false → unregister s = s) := by
  refine ⟨rfl, rfl, fun h => ?_⟩
  cases s
  simp only [unregister]
  simp_all

/-- Witness for C2: on a concrete already-unregistered coordinator state, a
second unregister changes nothing and unregister is a no-op. -/
theorem unregister_idempotent_witness :
    unregister (unregister ⟨false, "org.kde.kuiserver", "", 0⟩) =
      unregister ⟨false, "org.kde.kuiserver", "", 0⟩ ∧
    unregister ⟨false, "org.kde.kuiserver", "", 0⟩ =
      ⟨false, "org.kde.kuiserver", "", 0⟩ :=
  ⟨(unregister_idempotent ⟨false, "org.kde.kuiserver", "", 0⟩).1,
   (unregister_idempotent ⟨false, "org.kde.kuiserver", "", 0⟩).2.2 rfl⟩

/-- C4: the identity resolver is a deterministic function of its four inputs
(it is a pure Lean function, so two runs on equal inputs give equal outputs);
the service name is the reversed domain followed by the application name,
with the process id appended exactly when the Multiple flag is set, and an
empty domain or an empty name is the fatal configuration error
emptyIdentity. -/
theorem identity_resolver_correct (d n : String) (options pid : Nat)
    (hd : d ≠ "") (hn : n ≠ "") :
    (hasFlag options Multiple = true →
      resolveIdentity d n options pid = .ok (d ++ "." ++ n ++ "-" ++ toString pid)) ∧
    (hasFlag options Multiple = false →
      resolveIdentity d n options pid = .ok (d ++ "." ++ n)) ∧
    resolveIdentity "" n options pid = .error .emptyIdentity ∧
    resolveIdentity d "" options pid = .error .emptyIdentity := by
  refine ⟨fun hm => ?_, fun hm => ?_, by simp [resolveIdentity], by simp [resolveIdentity]⟩ <;>
    simp [resolveIdentity, hd, hn, hm]

/-- Witness for C4: concrete runs of the resolver. With domain org.kde, name
kuiserver, Multiple mode and pid 1234 the identity is org.kde.kuiserver-1234;
in Unique mode it is org.kde.kuiserver. -/
theorem identity_resolver_correct_witness :
    resolveIdentity "org.kde" "kuiserver" 2 1234 =
      .ok ("org.kde" ++ "." ++ "kuiserver" ++ "-" ++ toString 1234) ∧
    resolveIdentity "" "kuiserver" 2 1234 = .error .emptyIdentity :=
  ⟨(identity_resolver_correct "org.kde" "kuiserver" 2 1234
      (by decide) (by decide)).1 (by decide),
   (identity_resolver_correct "org.kde" "kuiserver" 2 1234
      (by decide) (by decide)).2.2.1⟩

/-- C5: when the first claim is denied with ownedByOther and the Replace flag
is set, the coordinator issues exactly one quit request; if the owner quits
within the timeout it retries the claim exactly once (two claim attempts in
total); if that retried claim is again denied with ownedByOther the state
becomes forwarding; and in every case it never issues more than two claim
attempts (it never loops a second time). -/
theorem replace_retries_once (options : Nat) (bus : BusResponses)
    (h1 : bus.firstClaim = .ownedByOther)
    (h2 : hasFlag options Replace = true) :
    (register options bus).2.count .quitRequest = 1 ∧
    (bus.ownerQuits = true →
      (register options bus).2.count .claimName = 2) ∧
    (bus.ownerQuits = true → bus.retryClaim = .ownedByOther →
      (register options bus).1 = .forwarding) ∧
    (register options bus).2.count .claimName ≤ 2 := by
  obtain ⟨c1, q, c2⟩ := bus
  cases h1
  cases q <;> cases c2 <;> simp_all [register, List.count_cons]

/-- Witness for C5: with Replace set, the owner quitting and the retried
claim again denied, the coordinator issued one quit request, two claim
attempts, and ends forwarding. -/
theorem replace_retries_once_witness :
    (register 8 ⟨ClaimResult.ownedByOther, true,
        ClaimResult.ownedByOther⟩).2.count .quitRequest = 1 ∧
    (register 8 ⟨ClaimResult.ownedByOther, true,
        ClaimResult.ownedByOther⟩).2.count .claimName = 2 ∧
    (register 8 ⟨ClaimResult.ownedByOther, true,
        ClaimResult.ownedByOther⟩).1 = .forwarding := by
  have h := replace_retries_once 8
    ⟨ClaimResult.ownedByOther, true, ClaimResult.ownedByOther⟩ rfl (by decide)
  exact ⟨h.1, h.2.1 rfl, h.2.2.1 rfl rfl⟩

/-- C7: the registration coordinator never terminates the hosting process:
no execution path of register or construct ever issues the exitProcess
action. Termination is external caller behaviour: the caller policy exits
exactly on a non-registered outcome without the NoExitOnFailure flag, so the
NoExitOnFailure flag only affects that surrounding layer. -/
theorem coordinator_never_exits (options : Nat) (bus : BusResponses) :
    BusAction.exitProcess ∉ (register options bus).2 ∧
    (∀ (d n : String) (pid : Nat),
      BusAction.exitProcess ∉ (construct options d n pid bus).2) ∧
    (∀ state : RegistrationState,
      callerExitPolicy options state =
        if state = RegistrationState.registered ||
            hasFlag options NoExitOnFailure
        then [] else [BusAction.exitProcess]) := by
  have hreg : ∀ (o : Nat) (b : BusResponses),
      BusAction.exitProcess ∉ (register o b).2 := by
    intro o b
    obtain ⟨c1, q, c2⟩ := b
    by_cases hr : hasFlag o Replace = true <;>
      cases c1 <;> cases q <;> cases c2 <;>
      simp [register, hr]
  refine ⟨hreg options bus, fun d n pid => ?_, fun state => rfl⟩
  unfold construct
  split
  · simp
  · cases h : resolveIdentity d n options pid <;> simp [h]
    exact hreg options bus

/-- C1: every invocation of the bus-exposed ActivateAction handler collapses
the parameter list before the activateActionRequested event is emitted: an
empty list yields no parameter, a list of exactly one element yields that
element, and a list of two or more elements yields no parameter. -/
theorem activateAction_collapses_parameters {α : Type} (name : String)
    (pd : List (String × α)) :
    ActivateAction name ([] : List α) pd =
      .activateActionRequested name none ∧
    (∀ x : α, ActivateAction name [x] pd =
      .activateActionRequested name (some x)) ∧
    (∀ (x y : α) (rest : List α),
      ActivateAction name (x :: y :: rest) pd =
        .activateActionRequested name none) :=
  ⟨rfl, fun _ => rfl, fun _ _ _ => rfl⟩

/-- C10: the bus-exposed Activate handler emits the very activateRequested
event constructor that the CommandLine path uses for forwarded command
lines, and it always carries an empty argument list. -/
theorem activate_emits_empty_arguments {α : Type}
    (pd : List (String × α))
    (handler : List String → String → ServiceState → ServiceState)
    (args : List String) (wd : String) (s : ServiceState) :
    Activate pd = Event.activateRequested [] "" ∧
    (CommandLine (α := α) handler args wd pd s).2.2 =
      Event.activateRequested args wd :=
  ⟨rfl, rfl⟩

/-- C6: the owning instance's CommandLine handler delivers the event
synchronously to the local handler and replies with the exit value held when
it returns; the default exit value is 0; hence a contending instance whose
owner's handler synchronously sets the exit value to 3 gets 3 back from the
forwarded call, and the contending instance (first claim denied with
ownedByOther, Replace not set) ends forwarding, never registered. -/
theorem commandLine_replies_current_exitValue
    (handler : List String → String → ServiceState → ServiceState)
    (args : List String) (wd : String) (options : Nat) (bus : BusResponses)
    (h3 : (handler args wd initialServiceState).exitValue = 3)
    (hb : bus.firstClaim = .ownedByOther)
    (hr : hasFlag options Replace = false) :
    initialServiceState.exitValue = 0 ∧
    (∀ s : ServiceState, (CommandLine (α := Unit) handler args wd [] s).1 =
      (handler args wd s).exitValue) ∧
    forward handler args wd initialServiceState = 3 ∧
    (register options bus).1 = .forwarding ∧
    (register options bus).1 ≠ .registered := by
  obtain ⟨c1, q, c2⟩ := bus
  cases hb
  refine ⟨rfl, fun s => rfl, h3, ?_, ?_⟩ <;> simp [register, hr]

/-- Witness for C6: with the owner's handler synchronously setting the exit
value to 3, invocation arguments app --foo and working directory /tmp, the
forwarded call returns 3 and the contending instance ends forwarding. -/
theorem commandLine_replies_current_exitValue_witness :
    forward (fun _ _ s => setExitValue 3 s) ["app", "--foo"] "/tmp"
      initialServiceState = 3 ∧
    (register 1 ⟨ClaimResult.ownedByOther, false, ClaimResult.ok⟩).1 =
      .forwarding :=
  ⟨(commandLine_replies_current_exitValue (fun _ _ s => setExitValue 3 s)
      ["app", "--foo"] "/tmp" 1
      ⟨ClaimResult.ownedByOther, false, ClaimResult.ok⟩
      rfl rfl (by decide)).2.2.1,
   (commandLine_replies_current_exitValue (fun _ _ s => setExitValue 3 s)
      ["app", "--foo"] "/tmp" 1
      ⟨ClaimResult.ownedByOther, false, ClaimResult.ok⟩
      rfl rfl (by decide)).2.2.2.1⟩

/-- Helper: the bus-side owner is unchanged by any trace of local lifecycle
events that contains no unregister call and no process exit. -/
theorem busOwnerAfterTrace_const :
    ∀ (trace : List LifecycleEvent) (owner : Option Nat),
      (∀ e ∈ trace, e ≠ LifecycleEvent.unregisterCall ∧
        e ≠ LifecycleEvent.processExit) →
      busOwnerAfterTrace owner trace = owner := by
  intro trace
  induction trace with
  | nil => intro owner _; rfl
  | cons e rest ih =>
    intro owner h
    have he := h e (List.mem_cons_self e rest)
    have hrest : ∀ x ∈ rest, x ≠ LifecycleEvent.unregisterCall ∧
        x ≠ LifecycleEvent.processExit :=
      fun x hx => h x (List.mem_cons_of_mem e hx)
    cases e with
    | destroyObject => exact ih owner hrest
    | otherActivity => exact ih owner hrest
    | unregisterCall => exact absurd rfl he.1
    | processExit => exact absurd rfl he.2

/-- C8: destroying the service object does not release a held registration:
the destroy event leaves the bus-side owner unmodified, and once registered
the claim persists unchanged across every sequence of local events that
contains no explicit unregister call and no process termination. -/
theorem destruction_preserves_registration (p : Nat)
    (trace : List LifecycleEvent)
    (h : ∀ e ∈ trace, e ≠ LifecycleEvent.unregisterCall ∧
      e ≠ LifecycleEvent.processExit) :
    (∀ owner : Option Nat,
      busOwnerAfter owner LifecycleEvent.destroyObject = owner) ∧
    busOwnerAfterTrace (some p) trace = some p :=
  ⟨fun _ => rfl, busOwnerAfterTrace_const trace (some p) h⟩

/-- Witness for C8: process 7 holds the claim; destroying the object and
other local activity leave it held. -/
theorem destruction_preserves_registration_witness :
    busOwnerAfterTrace (some 7)
      [LifecycleEvent.destroyObject, LifecycleEvent.otherActivity] = some 7 :=
  (destruction_preserves_registration 7
    [LifecycleEvent.destroyObject, LifecycleEvent.otherActivity]
    (by decide)).2

end KDBus
